import Mathlib

/-!
Verification of the credential/token lifecycle logic of the
cedadev/opendap-python-example scripts.

The development shallow-embeds the three scripts' credential routines:

* `RemoteNcWithToken` — `load_cached_token` and `get_token` from
  `remote_nc_with_token.py`.  File contents, JSON parsing and ISO-8601
  timestamp parsing are modelled by inductive views of the cache file and
  of the HTTP response body; Python exceptions are explicit `PyResult`
  values; timestamps are integers (seconds).
* `RemoteNcWithCert` — `cert_is_valid` and `setup_credentials` from
  `remote_nc_with_cert.py`, plus the module-level environment-variable
  reads at import time.
* `SimpleFileDownloader` — the duplicate `cert_is_valid`, its
  `setup_credentials` (which reads the environment variables only on the
  refresh path) and `main` from `simple_file_downloader.py`.

Network activity and filesystem writes are recorded as counters/flags in
explicit result structures so that claims about "no network call" and
"cache not modified" are directly statable.
-/

/-- Python exceptions that the embedded code can raise. -/
inductive PyExc where
  | fileNotFound
  | jsonDecodeError
  | typeError
  | valueError
  | keyError
deriving DecidableEq, Repr

/-- Result of running a fragment of Python code: either a value or an
uncaught exception propagating to the caller. -/
inductive PyResult (α : Type) where
  | val (a : α)
  | exc (e : PyExc)
deriving DecidableEq, Repr

/-- The view of `os.environ` restricted to the two credential variables
`CEDA_USERNAME` and `CEDA_PASSWORD`: `none` means the variable is absent
(`os.environ[...]` raises `KeyError`). -/
structure Env where
  ceda_username : Option String
  ceda_password : Option String
deriving DecidableEq, Repr

/-- The state of a certificate file on disk, as seen through
`open(cert_file, 'rb')` followed by
`x509.load_pem_x509_certificate`: the file may be missing (`IOError`),
present but unparsable as a PEM X.509 certificate (`ValueError`), or a
parsed certificate carrying its validity window. -/
inductive CertFile where
  | missing
  | unparsable (bytes : String)
  | parsed (bytes : String) (not_valid_before : Int) (not_valid_after : Int)
deriving DecidableEq, Repr

namespace RemoteNcWithToken

/-- The outcome of parsing the `expires` field of a JSON object with
`datetime.strptime(data.get("expires"), "%Y-%m-%dT%H:%M:%S.%f%z")`:
the field may be missing (`data.get` yields `None`, `strptime` raises
`TypeError`), present but not in the expected ISO-8601 form
(`strptime` raises `ValueError`), or parse to a timestamp `t`. -/
inductive ExpField where
  | missing
  | bad (raw : String)
  | ok (raw : String) (t : Int)
deriving DecidableEq, Repr

/-- The view of a text blob through `json.loads`: either not valid JSON
(`JSONDecodeError`), or a JSON object carrying its `access_token` field
(`data.get("access_token")`) and its `expires` field. -/
inductive JsonText where
  | notJson (raw : String)
  | obj (raw : String) (access_token : Option String) (expires : ExpField)
deriving DecidableEq, Repr

/-- The state of the token cache file at `TOKEN_CACHE`: absent
(`open` raises `FileNotFoundError`) or present with some contents. -/
inductive CacheState where
  | absent
  | file (content : JsonText)
deriving DecidableEq, Repr

/-- `load_cached_token` from `remote_nc_with_token.py`: read the cache
file, `json.loads` it, extract `access_token` and parse `expires`.
Only `FileNotFoundError` is caught (returning `(None, None)`); every
other exception propagates. -/
def load_cached_token : CacheState → PyResult (Option String × Option Int)
  | .absent => .val (none, none)
  | .file (.notJson _) => .exc .jsonDecodeError
  | .file (.obj _ _token .missing) => .exc .typeError
  | .file (.obj _ _token (.bad _)) => .exc .valueError
  | .file (.obj _ token (.ok _ t)) => .val (token, some t)

/-- Python truthiness of the cached token value: `not token` is true for
`None` and for the empty string. -/
def tokenFalsy : Option String → Bool
  | none => true
  | some s => s == ""

/-- The `expires < now` comparison.  When `token` is truthy,
`load_cached_token` always supplies `some` expiry, so the `none` branch
is unreachable in `get_token` (Python would raise `TypeError` there). -/
def expiresBefore : Option Int → Int → Bool
  | none, _ => true
  | some t, now => decide (t < now)

/-- The view of the token service's HTTP response: status code and the
`json.loads` view of `response.text`. -/
structure Response where
  status_code : Nat
  body : JsonText
deriving DecidableEq, Repr

/-- The observable outcome of one `get_token()` call: the returned
`(token, expires)` pair (or propagated exception), the final state of
the cache file, and how many POST requests to `TOKEN_URL` were made. -/
structure GetTokenResult where
  ret : PyResult (Option String × Option Int)
  cache : CacheState
  networkCalls : Nat
deriving DecidableEq, Repr

/-- `get_token` from `remote_nc_with_token.py`.  Load the cached token;
if `not token or expires < now`, POST to the token service: on a 200
response, `json.loads(response.text)`, take `response_data["access_token"]`
(`KeyError` if missing) and write `response.text` verbatim to the cache;
on any other status only print a message.  The function returns
`token, expires` — note that `expires` is never reassigned on the
refresh path. -/
def get_token (cache : CacheState) (now : Int) (resp : Response) : GetTokenResult :=
  match load_cached_token cache with
  | .exc e => ⟨.exc e, cache, 0⟩
  | .val (token, expires) =>
    if tokenFalsy token || expiresBefore expires now then
      if resp.status_code == 200 then
        match resp.body with
        | .notJson _ => ⟨.exc .jsonDecodeError, cache, 1⟩
        | .obj _ none _ => ⟨.exc .keyError, cache, 1⟩
        | .obj raw (some t) exp => ⟨.val (some t, expires), .file (.obj raw (some t) exp), 1⟩
      else
        ⟨.val (token, expires), cache, 1⟩
    else
      ⟨.val (token, expires), cache, 0⟩

/-- A cache state that exists, fully parses, and whose `expires`
timestamp is strictly in the future. -/
def cacheParsesFutureExpires (c : CacheState) (now : Int) : Bool :=
  match c with
  | .file (.obj _ _ (.ok _ t)) => decide (now < t)
  | _ => false

/-- A cache state whose `access_token` field is present and truthy
(non-empty). -/
def cacheTokenTruthy (c : CacheState) : Bool :=
  match c with
  | .file (.obj _ (some s) _) => !(s == "")
  | _ => false

/-- A cache state that is absent or malformed: missing file, unparsable
JSON, or missing/ill-formed `access_token` or `expires` fields. -/
def absentOrMalformed (c : CacheState) : Bool :=
  match c with
  | .absent => true
  | .file (.notJson _) => true
  | .file (.obj _ none _) => true
  | .file (.obj _ (some _) .missing) => true
  | .file (.obj _ (some _) (.bad _)) => true
  | .file (.obj _ (some _) (.ok _ _)) => false

end RemoteNcWithToken

namespace RemoteNcWithCert

/-- The module-level code of `remote_nc_with_cert.py`: lines 41–42 read
`os.environ['CEDA_USERNAME']` and `os.environ['CEDA_PASSWORD']` right
when the module loads, before any function can run; a missing variable raises
`KeyError` and aborts the script. -/
inductive ModuleInit where
  | keyError
  | started (username password : String)
deriving DecidableEq, Repr

/-- The import-time environment reads of `remote_nc_with_cert.py`. -/
def module_init (env : Env) : ModuleInit :=
  match env.ceda_username with
  | none => .keyError
  | some u =>
    match env.ceda_password with
    | none => .keyError
    | some p => .started u p

/-- `cert_is_valid` from `remote_nc_with_cert.py`: read the certificate
file (`IOError` → `False`), parse it as PEM X.509 (`ValueError` →
`False`), then test
`cert.not_valid_before <= now and cert.not_valid_after > now + timedelta(0, min_lifetime)`. -/
def cert_is_valid (cert_file : CertFile) (now : Int) (min_lifetime : Int) : Bool :=
  match cert_file with
  | .missing => false
  | .unparsable _ => false
  | .parsed _ nvb nva => decide (nvb ≤ now) && decide (nva > now + min_lifetime)

/-- The filesystem state `setup_credentials` consults: whether the
`~/.dodsrc` marker file exists (`os.path.isfile(DODS_FILE_PATH)`), and
the certificate file at `CREDENTIALS_FILE_PATH`. -/
structure SetupState where
  dods_file_exists : Bool
  credentials_file : CertFile
deriving DecidableEq, Repr

/-- The observable outcome of one `setup_credentials` call: the boolean
return value (`False` means credentials were already set up), the
number of calls to the trust-root and certificate services, and whether
the credential and `~/.dodsrc` files were (over)written. -/
structure SetupResult where
  ret : Bool
  trustrootCalls : Nat
  certServiceCalls : Nat
  credentialsWritten : Bool
  dodsWritten : Bool
deriving DecidableEq, Repr

/-- `setup_credentials` from `remote_nc_with_cert.py`: if the marker
file exists, `force` is false and the certificate is valid with the
default zero margin, print and return `False`; otherwise fetch trust
roots, obtain a certificate (overwriting `CREDENTIALS_FILE_PATH`),
write the `~/.dodsrc` file and return `True`. -/
def setup_credentials (st : SetupState) (now : Int) (force : Bool) : SetupResult :=
  if st.dods_file_exists && !force && cert_is_valid st.credentials_file now 0 then
    ⟨false, 0, 0, false, false⟩
  else
    ⟨true, 1, 1, true, true⟩

end RemoteNcWithCert

namespace SimpleFileDownloader

/-- `cert_is_valid` from `simple_file_downloader.py` (verbatim duplicate
of the one in `remote_nc_with_cert.py`). -/
def cert_is_valid (cert_file : CertFile) (now : Int) (min_lifetime : Int) : Bool :=
  match cert_file with
  | .missing => false
  | .unparsable _ => false
  | .parsed _ nvb nva => decide (nvb ≤ now) && decide (nva > now + min_lifetime)

/-- How one `setup_credentials()` call in the downloader ends: reuse
path (returns `False`), refresh path (returns `True`), or a `KeyError`
raised by an `os.environ[...]` lookup. -/
inductive SetupOutcome where
  | reused
  | refreshed
  | keyError
deriving DecidableEq, Repr

/-- The observable outcome of one downloader `setup_credentials()` call:
the outcome, how many of the two environment variables were read
(attempted lookups included), service-call counts and whether the
credential file was written. -/
structure SetupResult where
  outcome : SetupOutcome
  envReads : Nat
  trustrootCalls : Nat
  certServiceCalls : Nat
  credentialsWritten : Bool
deriving DecidableEq, Repr

/-- `setup_credentials` from `simple_file_downloader.py`: if the
certificate is valid with the default zero margin, print and return
`False` without touching the environment; otherwise read
`os.environ['CEDA_USERNAME']` then `os.environ['CEDA_PASSWORD']`
(a missing one raises `KeyError`), fetch trust roots, obtain a
certificate (writing `CREDENTIALS_FILE_PATH`) and return `True`. -/
def setup_credentials (credentials_file : CertFile) (now : Int) (env : Env) : SetupResult :=
  if cert_is_valid credentials_file now 0 then
    ⟨.reused, 0, 0, 0, false⟩
  else
    match env.ceda_username with
    | none => ⟨.keyError, 1, 0, 0, false⟩
    | some _ =>
      match env.ceda_password with
      | none => ⟨.keyError, 2, 0, 0, false⟩
      | some _ => ⟨.refreshed, 2, 1, 1, true⟩

/-- How one downloader `main(file_url)` call ends: either the
`except KeyError` branch prints the missing-credentials message and
returns, or the flow proceeds to `requests.get` and writes the
downloaded file. -/
inductive MainOutcome where
  | credsMessage
  | downloaded
deriving DecidableEq, Repr

/-- The observable outcome of one downloader `main` call: which branch
was taken, the inner `setup_credentials` outcome, and how many download
GET requests were issued. -/
structure MainResult where
  outcome : MainOutcome
  setup : SetupResult
  downloadCalls : Nat
deriving DecidableEq, Repr

/-- `main` from `simple_file_downloader.py`: run `setup_credentials`
inside `try/except KeyError`; on `KeyError` print
"CEDA_USERNAME and CEDA_PASSWORD environment variables required" and
return; otherwise issue the `requests.get` download. -/
def main (credentials_file : CertFile) (now : Int) (env : Env) : MainResult :=
  let s := setup_credentials credentials_file now env
  match s.outcome with
  | .keyError => ⟨.credsMessage, s, 0⟩
  | _ => ⟨.downloaded, s, 1⟩

end SimpleFileDownloader

/-- Both scripts define the same `cert_is_valid`. -/
theorem cert_is_valid_duplicated (f : CertFile) (now m : Int) :
    SimpleFileDownloader.cert_is_valid f now m = RemoteNcWithCert.cert_is_valid f now m := by
  cases f <;> rfl

/-- C5: for every readable, parsable PEM certificate and every
`min_lifetime`, `cert_is_valid` returns `true` iff the current time lies
in `[not_valid_before, not_valid_after - min_lifetime)`, i.e.
`now >= not_valid_before` and `now + min_lifetime < not_valid_after`. -/
theorem c5_cert_is_valid_window (bytes : String) (nvb nva now min_lifetime : Int) :
    RemoteNcWithCert.cert_is_valid (.parsed bytes nvb nva) now min_lifetime = true ↔
      (nvb ≤ now ∧ now + min_lifetime < nva) := by
  simp [RemoteNcWithCert.cert_is_valid]

/-- C6: for every input path state and `min_lifetime`, `cert_is_valid`
never raises: a missing file and unparsable bytes both yield `false`
(both in the certificate script and in the downloader). -/
theorem c6_cert_is_valid_total (bytes : String) (now min_lifetime : Int) :
    RemoteNcWithCert.cert_is_valid .missing now min_lifetime = false ∧
    RemoteNcWithCert.cert_is_valid (.unparsable bytes) now min_lifetime = false ∧
    SimpleFileDownloader.cert_is_valid .missing now min_lifetime = false ∧
    SimpleFileDownloader.cert_is_valid (.unparsable bytes) now min_lifetime = false :=
  ⟨rfl, rfl, rfl, rfl⟩

/-- C7: validity is antitone in the minimum-lifetime margin: for
`m1 < m2`, a certificate valid at margin `m2` is also valid at
margin `m1`. -/
theorem c7_cert_is_valid_antitone (f : CertFile) (now m1 m2 : Int)
    (hlt : m1 < m2)
    (hvalid : RemoteNcWithCert.cert_is_valid f now m2 = true) :
    RemoteNcWithCert.cert_is_valid f now m1 = true := by
  cases f with
  | missing => simp [RemoteNcWithCert.cert_is_valid] at hvalid
  | unparsable b => simp [RemoteNcWithCert.cert_is_valid] at hvalid
  | parsed b nvb nva =>
    simp only [RemoteNcWithCert.cert_is_valid, Bool.and_eq_true, decide_eq_true_eq] at *
    omega

/-- Witness for C7 at a concrete certificate, `now = 10`, margins
`m1 = 1 < m2 = 2`. -/
theorem c7_cert_is_valid_antitone_witness :
    (1 : Int) < 2 ∧
    RemoteNcWithCert.cert_is_valid (.parsed "pem" 0 100) 10 2 = true ∧
    RemoteNcWithCert.cert_is_valid (.parsed "pem" 0 100) 10 1 = true :=
  ⟨by decide, by decide,
    c7_cert_is_valid_antitone (.parsed "pem" 0 100) 10 1 2 (by decide) (by decide)⟩

/-- C8: `setup_credentials` returns `False` with no network activity
exactly when `force` is false, the `~/.dodsrc` marker exists and the
certificate is valid at zero margin; and with `force = true` both
services are contacted and the certificate file is overwritten, even if
an in-date certificate exists. -/
theorem c8_setup_credentials_branches (st : RemoteNcWithCert.SetupState) (now : Int)
    (force : Bool) :
    (((RemoteNcWithCert.setup_credentials st now force).ret = false ∧
      (RemoteNcWithCert.setup_credentials st now force).trustrootCalls = 0 ∧
      (RemoteNcWithCert.setup_credentials st now force).certServiceCalls = 0) ↔
      (force = false ∧ st.dods_file_exists = true ∧
        RemoteNcWithCert.cert_is_valid st.credentials_file now 0 = true)) ∧
    ((RemoteNcWithCert.setup_credentials st now true).trustrootCalls = 1 ∧
      (RemoteNcWithCert.setup_credentials st now true).certServiceCalls = 1 ∧
      (RemoteNcWithCert.setup_credentials st now true).credentialsWritten = true) := by
  cases force <;>
    cases hd : st.dods_file_exists <;>
      cases hv : RemoteNcWithCert.cert_is_valid st.credentials_file now 0 <;>
        simp [RemoteNcWithCert.setup_credentials, hd, hv]

/-- C10: in the downloader's `setup_credentials`, a valid in-date
certificate short-circuits to the reuse path: the function returns
`False` without reading either environment variable, with no network
calls and no writes — so absent credentials cause no error at all. -/
theorem c10_downloader_reuse_reads_no_env (credentials_file : CertFile) (now : Int)
    (env : Env)
    (hvalid : SimpleFileDownloader.cert_is_valid credentials_file now 0 = true) :
    (SimpleFileDownloader.setup_credentials credentials_file now env).outcome = .reused ∧
    (SimpleFileDownloader.setup_credentials credentials_file now env).envReads = 0 ∧
    (SimpleFileDownloader.setup_credentials credentials_file now env).trustrootCalls = 0 ∧
    (SimpleFileDownloader.setup_credentials credentials_file now env).certServiceCalls = 0 ∧
    (SimpleFileDownloader.setup_credentials credentials_file now env).credentialsWritten
      = false := by
  simp [SimpleFileDownloader.setup_credentials, hvalid]

/-- Witness for C10: a valid certificate and an environment with both
credential variables absent. -/
theorem c10_downloader_reuse_reads_no_env_witness :
    SimpleFileDownloader.cert_is_valid (.parsed "pem" 0 100) 10 0 = true ∧
    (SimpleFileDownloader.setup_credentials (.parsed "pem" 0 100) 10 ⟨none, none⟩).outcome
      = .reused ∧
    (SimpleFileDownloader.setup_credentials (.parsed "pem" 0 100) 10 ⟨none, none⟩).envReads
      = 0 :=
  ⟨by decide,
    (c10_downloader_reuse_reads_no_env (.parsed "pem" 0 100) 10 ⟨none, none⟩ (by decide)).1,
    (c10_downloader_reuse_reads_no_env (.parsed "pem" 0 100) 10 ⟨none, none⟩ (by decide)).2.1⟩

open RemoteNcWithToken

/-- A cache file whose JSON parses and whose `expires` lies in 2099, but
whose `access_token` is the empty string. -/
def c1CexCache : CacheState :=
  .file (.obj "cached json, empty access_token, expires 2099"
    (some "") (.ok "2099-01-01T00:00:00.000000+00:00" 4070908800))

/-- A 200 token-service response carrying a fresh token. -/
def c1CexResp : Response :=
  ⟨200, .obj "fresh token json"
    (some "newtoken") (.ok "2099-06-01T00:00:00.000000+00:00" 4083955200)⟩

/-- C1 is false as stated: this cache file exists, parses, and holds an
`expires` strictly in the future (at `now = 0`), yet `get_token` makes a
network call, because the parsed `access_token` is falsy and the code
refreshes whenever `not token or expires < now`. -/
theorem c1_reuse_counterexample :
    cacheParsesFutureExpires c1CexCache 0 = true ∧
    (get_token c1CexCache 0 c1CexResp).networkCalls = 1 := by
  exact ⟨by decide, by decide⟩

/-- C1 (amended): for every cache state that exists, parses, holds an
`expires` strictly in the future and a truthy (present, non-empty)
`access_token`, `get_token` makes zero network calls, returns exactly
the cached `(token, expires)` pair and leaves the cache untouched. -/
theorem c1_amended_reuse (cache : CacheState) (now : Int) (resp : Response)
    (hfresh : cacheParsesFutureExpires cache now = true)
    (htruthy : cacheTokenTruthy cache = true) :
    (get_token cache now resp).networkCalls = 0 ∧
    (get_token cache now resp).ret = load_cached_token cache ∧
    (get_token cache now resp).cache = cache := by
  rcases cache with _ | content
  · simp [cacheTokenTruthy] at htruthy
  rcases content with raw | ⟨raw, tok, exp⟩
  · simp [cacheTokenTruthy] at htruthy
  rcases tok with _ | s
  · simp [cacheTokenTruthy] at htruthy
  rcases exp with _ | eraw | ⟨eraw, t⟩
  · simp [cacheParsesFutureExpires] at hfresh
  · simp [cacheParsesFutureExpires] at hfresh
  · simp only [cacheParsesFutureExpires, decide_eq_true_eq] at hfresh
    simp only [cacheTokenTruthy, Bool.not_eq_true', beq_eq_false_iff_ne] at htruthy
    have h1 : tokenFalsy (some s) = false := by
      simp [tokenFalsy, htruthy]
    have h2 : expiresBefore (some t) now = false := by
      simp only [expiresBefore, decide_eq_false_iff_not]
      omega
    simp [get_token, load_cached_token, h1, h2]

/-- Witness for the amended C1 at a concrete in-date cache. -/
theorem c1_amended_reuse_witness :
    cacheParsesFutureExpires
      (.file (.obj "cached" (some "tok") (.ok "exp" 100))) 0 = true ∧
    cacheTokenTruthy (.file (.obj "cached" (some "tok") (.ok "exp" 100))) = true ∧
    ((get_token (.file (.obj "cached" (some "tok") (.ok "exp" 100))) 0 c1CexResp).networkCalls
        = 0 ∧
      (get_token (.file (.obj "cached" (some "tok") (.ok "exp" 100))) 0 c1CexResp).ret
        = load_cached_token (.file (.obj "cached" (some "tok") (.ok "exp" 100))) ∧
      (get_token (.file (.obj "cached" (some "tok") (.ok "exp" 100))) 0 c1CexResp).cache
        = .file (.obj "cached" (some "tok") (.ok "exp" 100))) :=
  ⟨by decide, by decide,
    c1_amended_reuse (.file (.obj "cached" (some "tok") (.ok "exp" 100))) 0 c1CexResp
      (by decide) (by decide)⟩

/-- The fresh-environment 200 response of the spec's scenario:
`access_token` is `"abc123"` and `expires` parses to 2099-01-01. -/
def c2Resp : Response :=
  ⟨200, .obj "abc123 token json, expires 2099"
    (some "abc123") (.ok "2099-01-01T00:00:00.000000+00:00" 4070908800)⟩

/-- C2 (code bug): on a fresh environment (no cache) with a 200 response,
`get_token` does persist the raw response body verbatim and returns the
token parsed from it, but the `expires` it returns is the stale
pre-refresh value (`None`), not the expiry parsed from the response:
the code never reassigns `expires` on the refresh path. -/
theorem c2_refresh_returns_stale_expiry :
    (get_token .absent 0 c2Resp).cache = .file c2Resp.body ∧
    (get_token .absent 0 c2Resp).networkCalls = 1 ∧
    (get_token .absent 0 c2Resp).ret = .val (some "abc123", none) ∧
    (get_token .absent 0 c2Resp).ret ≠ .val (some "abc123", some 4070908800) := by
  refine ⟨rfl, rfl, rfl, ?_⟩
  decide

/-- C3: on every refresh invocation that gets a non-200 response, the
cache file is neither written nor modified, and the returned pair is
not a usable token: it still fails the code's own freshness test
(`not token or expires < now`), being either falsy or expired. -/
theorem c3_non200_no_usable_token (cache : CacheState) (now : Int) (resp : Response)
    (hrefresh : (get_token cache now resp).networkCalls = 1)
    (hstatus : resp.status_code ≠ 200) :
    (get_token cache now resp).cache = cache ∧
    ∀ token expires, (get_token cache now resp).ret = .val (token, expires) →
      (tokenFalsy token || expiresBefore expires now) = true := by
  have hs : (resp.status_code == 200) = false := by
    simp only [beq_eq_false_iff_ne, ne_eq]
    exact hstatus
  cases hload : load_cached_token cache with
  | exc e => simp [get_token, hload] at hrefresh
  | val p =>
    obtain ⟨token, expires⟩ := p
    cases hcond : (tokenFalsy token || expiresBefore expires now) with
    | false => simp [get_token, hload, hcond] at hrefresh
    | true =>
      refine ⟨by simp [get_token, hload, hcond, hs], ?_⟩
      intro t e hret
      have hret2 : (get_token cache now resp).ret = .val (token, expires) := by
        simp [get_token, hload, hcond, hs]
      rw [hret2] at hret
      cases hret
      exact hcond

/-- The failed-issuance response of the spec's scenario: HTTP 401. -/
def c3Resp : Response := ⟨401, .notJson "Unauthorized"⟩

/-- Witness for C3: empty cache, 401 response. -/
theorem c3_non200_no_usable_token_witness :
    (get_token .absent 0 c3Resp).networkCalls = 1 ∧
    c3Resp.status_code ≠ 200 ∧
    ((get_token .absent 0 c3Resp).cache = .absent ∧
      ∀ token expires, (get_token .absent 0 c3Resp).ret = .val (token, expires) →
        (tokenFalsy token || expiresBefore expires 0) = true) :=
  ⟨rfl, by decide, c3_non200_no_usable_token .absent 0 c3Resp rfl (by decide)⟩

/-- C4 is false as stated: a present cache file whose contents are not
valid JSON is "malformed", yet `load_cached_token` raises
(`json.loads` throws `JSONDecodeError` and only `FileNotFoundError` is
caught), the exception propagates out of `get_token`, and no refresh
network call is made. -/
theorem c4_malformed_cache_raises :
    absentOrMalformed (.file (.notJson "garbage")) = true ∧
    load_cached_token (.file (.notJson "garbage")) = .exc .jsonDecodeError ∧
    (get_token (.file (.notJson "garbage")) 0 c3Resp).ret = .exc .jsonDecodeError ∧
    (get_token (.file (.notJson "garbage")) 0 c3Resp).networkCalls = 0 :=
  ⟨rfl, rfl, rfl, rfl⟩

/-- Any cache load yielding a falsy token or an expired timestamp sends
`get_token` down the refresh path: exactly one network call, whatever
the response. -/
theorem get_token_refresh_calls (cache : CacheState) (now : Int) (resp : Response)
    (token : Option String) (expires : Option Int)
    (hload : load_cached_token cache = .val (token, expires))
    (hcond : (tokenFalsy token || expiresBefore expires now) = true) :
    (get_token cache now resp).networkCalls = 1 := by
  rcases resp with ⟨sc, body⟩
  rcases body with raw | ⟨raw, tok, exp⟩
  · cases h : (sc == 200) <;> simp [get_token, hload, hcond, h]
  · rcases tok with _ | s <;> cases h : (sc == 200) <;>
      simp [get_token, hload, hcond, h]

/-- C4 (amended): of the "absent or malformed" cache states, only an
absent file and a parsed object lacking its `access_token` are
recovered into a refresh (one network call, no exception); unparsable
JSON and a missing or ill-formed `expires` field instead raise an
uncaught exception out of `load_cached_token`, and no refresh happens. -/
theorem c4_amended_absent_recovered (now : Int) (resp : Response) :
    (load_cached_token .absent = .val (none, none) ∧
      (get_token .absent now resp).networkCalls = 1) ∧
    (∀ raw eraw t,
      load_cached_token (.file (.obj raw none (.ok eraw t))) = .val (none, some t) ∧
      (get_token (.file (.obj raw none (.ok eraw t))) now resp).networkCalls = 1) ∧
    (∀ raw, load_cached_token (.file (.notJson raw)) = .exc .jsonDecodeError ∧
      (get_token (.file (.notJson raw)) now resp).networkCalls = 0) ∧
    (∀ raw tok, load_cached_token (.file (.obj raw tok .missing)) = .exc .typeError ∧
      (get_token (.file (.obj raw tok .missing)) now resp).networkCalls = 0) ∧
    (∀ raw tok eraw, load_cached_token (.file (.obj raw tok (.bad eraw))) = .exc .valueError ∧
      (get_token (.file (.obj raw tok (.bad eraw))) now resp).networkCalls = 0) := by
  refine ⟨⟨rfl, ?_⟩, fun raw eraw t => ⟨rfl, ?_⟩, fun raw => ⟨rfl, ?_⟩,
    fun raw tok => ⟨rfl, ?_⟩, fun raw tok eraw => ⟨rfl, ?_⟩⟩
  · exact get_token_refresh_calls .absent now resp none none rfl rfl
  · exact get_token_refresh_calls (.file (.obj raw none (.ok eraw t))) now resp
      none (some t) rfl rfl
  · simp [get_token, load_cached_token]
  · simp [get_token, load_cached_token]
  · simp [get_token, load_cached_token]

/-- A valid, in-date certificate for the C9 counterexample. -/
def c9ValidCert : CertFile := .parsed "pem bytes" 0 1000

/-- An environment with both credential variables absent. -/
def c9NoEnv : Env := ⟨none, none⟩

/-- C9 is false as stated: with both credential variables absent but a
valid certificate on disk, the downloader signals no missing-credentials
error at all — `setup_credentials` takes the reuse path without reading
the environment and `main` proceeds to the download request. -/
theorem c9_reuse_no_error_counterexample :
    (c9NoEnv.ceda_username = none ∨ c9NoEnv.ceda_password = none) ∧
    (SimpleFileDownloader.main c9ValidCert 10 c9NoEnv).outcome
      = SimpleFileDownloader.MainOutcome.downloaded ∧
    (SimpleFileDownloader.main c9ValidCert 10 c9NoEnv).outcome
      ≠ SimpleFileDownloader.MainOutcome.credsMessage ∧
    (SimpleFileDownloader.main c9ValidCert 10 c9NoEnv).downloadCalls = 1 :=
  ⟨Or.inl rfl, by decide, by decide, by decide⟩

/-- C9 (amended): when the username or password variable is absent,
`remote_nc_with_cert.py` aborts with `KeyError` at import time, before
any network call; the downloader surfaces its missing-credentials
message before any network call on every invocation that takes the
refresh path (certificate missing, unparsable or out of date) — on the
reuse path the variables are never read and no error occurs. -/
theorem c9_amended_missing_creds (credentials_file : CertFile) (now : Int) (env : Env)
    (hmissing : env.ceda_username = none ∨ env.ceda_password = none)
    (hinvalid : SimpleFileDownloader.cert_is_valid credentials_file now 0 = false) :
    RemoteNcWithCert.module_init env = .keyError ∧
    (SimpleFileDownloader.main credentials_file now env).outcome
      = SimpleFileDownloader.MainOutcome.credsMessage ∧
    (SimpleFileDownloader.main credentials_file now env).setup.trustrootCalls = 0 ∧
    (SimpleFileDownloader.main credentials_file now env).setup.certServiceCalls = 0 ∧
    (SimpleFileDownloader.main credentials_file now env).downloadCalls = 0 := by
  rcases env with ⟨u, p⟩
  rcases hmissing with h | h
  · obtain rfl : u = none := h
    simp [RemoteNcWithCert.module_init, SimpleFileDownloader.main,
      SimpleFileDownloader.setup_credentials, hinvalid]
  · obtain rfl : p = none := h
    cases u with
    | none =>
      simp [RemoteNcWithCert.module_init, SimpleFileDownloader.main,
        SimpleFileDownloader.setup_credentials, hinvalid]
    | some x =>
      simp [RemoteNcWithCert.module_init, SimpleFileDownloader.main,
        SimpleFileDownloader.setup_credentials, hinvalid]

/-- Witness for the amended C9: no certificate on disk, username absent. -/
theorem c9_amended_missing_creds_witness :
    ((⟨none, some "pw"⟩ : Env).ceda_username = none ∨
      (⟨none, some "pw"⟩ : Env).ceda_password = none) ∧
    SimpleFileDownloader.cert_is_valid .missing 0 0 = false ∧
    (RemoteNcWithCert.module_init ⟨none, some "pw"⟩ = .keyError ∧
      (SimpleFileDownloader.main .missing 0 ⟨none, some "pw"⟩).outcome
        = SimpleFileDownloader.MainOutcome.credsMessage ∧
      (SimpleFileDownloader.main .missing 0 ⟨none, some "pw"⟩).setup.trustrootCalls = 0 ∧
      (SimpleFileDownloader.main .missing 0 ⟨none, some "pw"⟩).setup.certServiceCalls = 0 ∧
      (SimpleFileDownloader.main .missing 0 ⟨none, some "pw"⟩).downloadCalls = 0) :=
  ⟨Or.inl rfl, rfl,
    c9_amended_missing_creds .missing 0 ⟨none, some "pw"⟩ (Or.inl rfl) rfl⟩
